import Mathlib

/-
  Verification of the Sync-Stock repository (Shopify inventory synchronisation
  scripts).  The definitions below are a shallow embedding of the Python
  sources main.py, sync_motovan.py and sync_thibault.py:

  - JVal models the JSON values handled by the scripts (floats are outside the
    model; every payload the claims are about is built from objects, lists,
    strings, integers, booleans and null).
  - Python dicts are modelled as association lists with insertion-order
    semantics: assignment replaces the first occurrence of the key in place,
    otherwise appends (matching CPython dict iteration order).
  - Network interaction is modelled by passing the sequence of responses the
    transport would deliver; an exception raised by the HTTP library is one of
    the response constructors.
-/

/-- JSON values as handled by the scripts.  jnull doubles as Python None:
the scripts never distinguish an explicit JSON null value from a missing key
(dict.get returns None in both cases). -/
inductive JVal where
  | jnull
  | jint (n : Int)
  | jstr (s : String)
  | jbool (b : Bool)
  | jlist (xs : List JVal)
  | jobj (fields : List (String × JVal))

/-- First-match lookup in a JSON object (dict keys are unique in practice). -/
def jlookup : List (String × JVal) → String → Option JVal
  | [], _ => none
  | p :: rest, k => if p.1 = k then some p.2 else jlookup rest k

/-- Python dict.get(k): returns None (jnull) when the key is absent. -/
def pyGet (o : List (String × JVal)) (k : String) : JVal :=
  (jlookup o k).getD JVal.jnull

/-- Python dict.get(k, d): returns the default when the key is absent. -/
def pyGetD (o : List (String × JVal)) (k : String) (d : JVal) : JVal :=
  (jlookup o k).getD d

/-- Python str() on the values the scripts feed it.  Scalar cases are exact;
the renderings of lists and dicts are abstracted to fixed non-empty strings
(the scripts only ever test truthiness of the result and compare it with real
SKU strings, for which any fixed bracketed rendering behaves identically). -/
def pyStr : JVal → String
  | JVal.jnull => "None"
  | JVal.jint n => toString n
  | JVal.jstr s => s
  | JVal.jbool b => if b then "True" else "False"
  | JVal.jlist _ => "[...]"
  | JVal.jobj _ => "(dict)"

/-- Python str.strip(): drop whitespace from both ends.  Implemented over the
character list so that it evaluates inside the kernel. -/
def pyStrip (s : String) : String :=
  String.mk
    (((s.data.dropWhile Char.isWhitespace).reverse.dropWhile
        Char.isWhitespace).reverse)

/-- Value of a non-empty all-digit character list. -/
def digitsValAux : List Char → Nat → Option Nat
  | [], acc => some acc
  | c :: rest, acc =>
    if c.isDigit then digitsValAux rest (acc * 10 + (c.toNat - 48)) else none

/-- Python int() on a string: surrounding whitespace is ignored, an optional
sign is followed by at least one digit; anything else raises (none). -/
def pyIntOfString (s : String) : Option Int :=
  match (pyStrip s).data with
  | [] => none
  | c :: rest =>
    if c = ('-') then
      match rest with
      | [] => none
      | _ => (digitsValAux rest 0).map (fun n => -(Int.ofNat n))
    else if c = ('+') then
      match rest with
      | [] => none
      | _ => (digitsValAux rest 0).map Int.ofNat
    else (digitsValAux (c :: rest) 0).map Int.ofNat

/-- Python int() coercion on JSON values: succeeds on integers, booleans and
integer-shaped strings, raises (none) on everything else. -/
def pyInt : JVal → Option Int
  | JVal.jint n => some n
  | JVal.jbool b => some (if b then 1 else 0)
  | JVal.jstr s => pyIntOfString s
  | _ => none

/-- Whether a value is Python None / JSON null. -/
def isNull : JVal → Bool
  | JVal.jnull => true
  | _ => false

/-- Dict assignment d[k] = v with CPython semantics: an existing key keeps its
position and gets the new value, a fresh key is appended. -/
def dinsert {α : Type} : List (String × α) → String → α → List (String × α)
  | [], k, v => [(k, v)]
  | p :: rest, k, v => if p.1 = k then (k, v) :: rest else p :: dinsert rest k v

/-- Dict lookup d[k] (first occurrence). -/
def dlookup {α : Type} : List (String × α) → String → Option α
  | [], _ => none
  | p :: rest, k => if p.1 = k then some p.2 else dlookup rest k

def skuKey : String := "sku"
def quantityKey : String := "quantity"
def valueKey : String := "value"
def itemsKey : String := "items"
def inventoryLvlKey : String := "inventoryLvl"

/-- One supplier HTTP interaction outcome: either the requests call raised a
transport exception, or a response arrived with a status code and a body
(none models a body that is not valid JSON, making response.json() raise). -/
inductive ChunkResp where
  | exn
  | resp (status : Nat) (body : Option JVal)

/-- main.py lines 124-132: the per-item extraction loop of
get_supplier_inventory.  Returns the updated mapping and whether an exception
escaped to the enclosing handler (int() raising on a non-integer quantity
value aborts the remaining items of the chunk, keeping entries already made).
Order of the guards follows the source: compute str(sku).strip(), read the
nested quantity dict, then insert only when the SKU string is truthy and the
value is not None. -/
def procItems : List (String × Int) → List JVal → List (String × Int) × Bool
  | m, [] => (m, false)
  | m, it :: rest =>
    match it with
    | JVal.jobj o =>
      let itemSku := pyStrip (pyStr (pyGet o skuKey))
      match pyGetD o quantityKey (JVal.jobj []) with
      | JVal.jobj q =>
        let qv := pyGet q valueKey
        if itemSku = "" then procItems m rest
        else if isNull qv then procItems m rest
        else
          match pyInt qv with
          | some n => procItems (dinsert m itemSku n) rest
          | none => (m, true)
      | _ => procItems m rest
    | _ => procItems m rest

/-- main.py lines 104-141: processing of one supplier chunk response.  The
Bool records whether the outer except-handler fired for this chunk (transport
exception, or an exception escaping the parse).  A status outside 200/400 is
only printed; a non-JSON body hits the inner ValueError handler; a top-level
shape that is not a dict, or an items field that is neither dict nor list, is
skipped by the isinstance guards. -/
def procChunk (m : List (String × Int)) (r : ChunkResp) :
    List (String × Int) × Bool :=
  match r with
  | ChunkResp.exn => (m, true)
  | ChunkResp.resp st body =>
    if st = 200 ∨ st = 400 then
      match body with
      | none => (m, false)
      | some d =>
        match d with
        | JVal.jobj o =>
          match pyGetD o itemsKey (JVal.jlist []) with
          | JVal.jobj f => procItems m [JVal.jobj f]
          | JVal.jlist xs => procItems m xs
          | _ => (m, false)
        | _ => (m, false)
    else (m, false)

/-- Sequential processing of the chunk responses, threading the shared
inventory_map accumulator and collecting each chunk's exception flag. -/
def procChunks : List (String × Int) → List ChunkResp →
    List (String × Int) × List Bool
  | m, [] => (m, [])
  | m, r :: rest =>
    let p := procChunk m r
    let q := procChunks p.1 rest
    (q.1, p.2 :: q.2)

/-- Structural worker for the chunking comprehension: the fuel only needs to
cover the list length since every step consumes at least one element. -/
def chunksBy50Aux : Nat → List String → List (List String)
  | 0, _ => []
  | _, [] => []
  | Nat.succ fuel, x :: xs =>
    ((x :: xs).take 50) :: chunksBy50Aux fuel ((x :: xs).drop 50)

/-- main.py line 101: the chunking list comprehension with CHUNK_SIZE = 50. -/
def chunksBy50 (xs : List String) : List (List String) :=
  chunksBy50Aux xs.length xs

/-- main.py get_supplier_inventory: an empty SKU list returns at once;
otherwise one request is issued per chunk and the responses are folded into
the inventory map.  Note that the SKU list only determines how many requests
go out; parsed entries are never filtered against it. -/
def getSupplierInventory (skus : List String) (rs : List ChunkResp) :
    List (String × Int) :=
  if skus = [] then []
  else (procChunks [] (rs.take (chunksBy50 skus).length)).1


/-- sync_motovan.py lines 105-106: summing int(w.get(quantity, 0)) over a
list of warehouse dicts; a non-dict element or a non-integer quantity raises
(none), aborting the whole sum. -/
def motoSumQty : List JVal → Option Int
  | [] => some 0
  | w :: rest =>
    match w with
    | JVal.jobj o =>
      match pyInt (pyGetD o quantityKey (JVal.jint 0)) with
      | some n => (motoSumQty rest).map (fun t => n + t)
      | none => none
    | _ => none

/-- Iterating the inventoryLvl value in the generator expression: lists are
iterated element-wise; an empty dict or empty string iterates zero times; any
other shape raises before or during iteration. -/
def motoIterQty : JVal → Option Int
  | JVal.jlist xs => motoSumQty xs
  | JVal.jobj [] => some 0
  | JVal.jstr s => if s = "" then some 0 else none
  | _ => none

/-- sync_motovan.py lines 94-113: handling of one per-SKU Motovan response.
Status 200 parses the body and records the summed warehouse quantity (any
exception in parsing or summing is caught and the SKU skipped); status 400
records quantity 0 without reading the body; any other status, and transport
exceptions, leave the mapping untouched. -/
def motoSku (m : List (String × Int)) (sku : String) (r : ChunkResp) :
    List (String × Int) :=
  match r with
  | ChunkResp.exn => m
  | ChunkResp.resp st body =>
    if st = 200 then
      match body with
      | none => m
      | some (JVal.jobj o) =>
        match motoIterQty (pyGetD o inventoryLvlKey (JVal.jlist [])) with
        | some t => dinsert m sku t
        | none => m
      | some _ => m
    else if st = 400 then dinsert m sku 0
    else m

/-- sync_motovan.py get_motovan_inventory: one request per SKU, in the order
of the SKU list, each consuming the next transport outcome. -/
def getMotovanInventory (skus : List String) (rs : List ChunkResp) :
    List (String × Int) :=
  if skus = [] then []
  else (skus.zip rs).foldl (fun m p => motoSku m p.1 p.2) []

/-- One catalog inventory-level item as returned by the GraphQL listing:
identifier, tracked flag, and the variant with its sku field.  The outer
Option is the variant object (none models JSON null); the inner Option is the
sku value inside it (none models JSON null). -/
structure CItem where
  id : String
  tracked : Bool
  variant : Option (Option String)
deriving DecidableEq

/-- One page of the catalog listing: either the data.location scope is
missing or null, or a page of items with the has-next-page flag. -/
inductive CatalogPage where
  | noLocation
  | page (items : List CItem) (hasNext : Bool)

/-- main.py lines 72-86: an item enters the product map when its variant is
present and the raw sku is truthy; the key is the stripped sku.  The tracked
flag is only inspected by the trace print, never by the filter. -/
def addItemMain (m : List (String × String)) (it : CItem) :
    List (String × String) :=
  match it.variant with
  | some v =>
    match v with
    | some sku => if sku = "" then m else dinsert m (pyStrip sku) it.id
    | none => m
  | none => m

/-- sync_motovan.py / sync_thibault.py lines 70-75: an item enters the
product map when its tracked flag is true, the variant is present and the sku
is truthy; the key is the stripped sku. -/
def addItemMoto (m : List (String × String)) (it : CItem) :
    List (String × String) :=
  if it.tracked then
    match it.variant with
    | some (some sku) => if sku = "" then m else dinsert m (pyStrip sku) it.id
    | _ => m
  else m

/-- Outcome of a pagination loop: fatal models the exception raised by
main.py on a missing location scope; starved marks a run of the model that
consumed every provided page while has-next was still true; done carries the
finished product map. -/
inductive PagerResult where
  | fatal
  | starved
  | done (m : List (String × String))
deriving DecidableEq

/-- main.py lines 63-90: the pagination loop of get_shopify_product_map.  A
missing or null location scope raises (fatal); otherwise the page items are
folded into the map and the loop continues while hasNextPage holds. -/
def shopifyPagerAux : List (String × String) → List CatalogPage → PagerResult
  | _, [] => PagerResult.starved
  | _, CatalogPage.noLocation :: _ => PagerResult.fatal
  | m, CatalogPage.page items hasNext :: rest =>
    let m2 := items.foldl addItemMain m
    if hasNext then shopifyPagerAux m2 rest else PagerResult.done m2

def shopifyPager (ps : List CatalogPage) : PagerResult :=
  shopifyPagerAux [] ps

/-- sync_motovan.py / sync_thibault.py lines 60-79: same loop, except that a
missing or null location scope prints and breaks, returning the entries
collected so far instead of raising. -/
def motoPagerAux : List (String × String) → List CatalogPage → PagerResult
  | _, [] => PagerResult.starved
  | m, CatalogPage.noLocation :: _ => PagerResult.done m
  | m, CatalogPage.page items hasNext :: rest =>
    let m2 := items.foldl addItemMoto m
    if hasNext then motoPagerAux m2 rest else PagerResult.done m2

def motoPager (ps : List CatalogPage) : PagerResult :=
  motoPagerAux [] ps

/-- One inventory update as submitted to the inventorySetQuantities bulk
mutation. -/
structure UpdateRec where
  inventoryItemId : String
  locationId : String
  quantity : Int
deriving DecidableEq

/-- main.py lines 220-233 (identically sync_motovan.py 163-169 and
sync_thibault.py 164-170): the reconciliation loop.  It iterates the supplier
mapping in order and emits one update per entry whose SKU is in the catalog
map; entries with no catalog match are skipped without being recorded
anywhere. -/
def reconcile (catalog : List (String × String)) (sup : List (String × Int))
    (loc : String) : List UpdateRec :=
  sup.filterMap fun p =>
    (dlookup catalog p.1).map fun iid => UpdateRec.mk iid loc p.2

/-- Outcome of one whole run: fatal models an uncaught exception, starved an
exhausted page environment, finished carries the update list handed to the
bulk writer. -/
inductive RunResult where
  | fatal
  | starved
  | finished (updates : List UpdateRec)
deriving DecidableEq

def MAIN_LOCATION_ID : String := "gid://shopify/Location/105008496957"
def MOTOVAN_LOCATION_ID : String := "gid://shopify/Location/111098265917"

/-- main.py main(): build the product map (exceptions propagate), stop early
when it is empty, otherwise fetch the supplier inventory for its keys and
reconcile.  The update list is exactly what bulk_update_inventory receives. -/
def mainRun (ps : List CatalogPage) (rs : List ChunkResp) : RunResult :=
  match shopifyPager ps with
  | PagerResult.fatal => RunResult.fatal
  | PagerResult.starved => RunResult.starved
  | PagerResult.done m =>
    if m = [] then RunResult.finished []
    else RunResult.finished
      (reconcile m (getSupplierInventory (m.map Prod.fst) rs) MAIN_LOCATION_ID)

/-- sync_motovan.py main(): same pipeline with the Motovan pager, fetcher and
location id. -/
def motoMain (ps : List CatalogPage) (rs : List ChunkResp) : RunResult :=
  match motoPager ps with
  | PagerResult.fatal => RunResult.fatal
  | PagerResult.starved => RunResult.starved
  | PagerResult.done m =>
    if m = [] then RunResult.finished []
    else RunResult.finished
      (reconcile m (getMotovanInventory (m.map Prod.fst) rs) MOTOVAN_LOCATION_ID)

/-- One GraphQL transport outcome for run_query in the sync scripts: a
non-200 HTTP status (which raises), a THROTTLED error payload, some other
errors payload (printed and returned), or a clean response. -/
inductive GqlResp where
  | httpErr (code : Nat)
  | throttled
  | gqlErrs
  | ok
deriving DecidableEq

/-- How a run_query call ends. -/
inductive QueryOutcome where
  | raised (code : Nat)
  | returned (hadErrors : Bool)
  | pending
deriving DecidableEq

/-- sync_motovan.py / sync_thibault.py lines 23-33: run_query consumes
transport outcomes one per attempt; a THROTTLED payload sleeps two seconds
and recurses on the remaining outcomes.  The second component counts the
requests issued; pending marks a model environment exhausted while the call
was still retrying. -/
def runQuery : List GqlResp → QueryOutcome × Nat
  | [] => (QueryOutcome.pending, 0)
  | r :: rest =>
    match r with
    | GqlResp.httpErr c => (QueryOutcome.raised c, 1)
    | GqlResp.throttled =>
      let p := runQuery rest
      (p.1, p.2 + 1)
    | GqlResp.gqlErrs => (QueryOutcome.returned true, 1)
    | GqlResp.ok => (QueryOutcome.returned false, 1)

/-
  Helper lemmas shared by the claim theorems.
-/

/-- Looking a key up after a dict assignment: the assigned key now maps to the
new value, every other key is unaffected. -/
lemma dlookup_dinsert {α : Type} (m : List (String × α)) (s k : String)
    (v : α) :
    dlookup (dinsert m s v) k = if k = s then some v else dlookup m k := by
  induction m with
  | nil =>
    simp only [dinsert, dlookup]
    by_cases h : k = s
    · simp [h]
    · have hsk : ¬s = k := fun hh => h hh.symm
      simp [h, hsk]
  | cons p rest ih =>
    simp only [dinsert]
    by_cases h1 : p.1 = s
    · simp only [if_pos h1, dlookup]
      by_cases h2 : k = s
      · simp [h2]
      · have hsk : ¬s = k := fun hh => h2 hh.symm
        simp [h2, h1, hsk]
    · simp only [if_neg h1, dlookup, ih]
      by_cases h3 : p.1 = k
      · have hks : ¬k = s := fun hh => h1 (h3.trans hh)
        simp [h3, hks]
      · simp [h3]

/-- A dict assignment never removes a key: any key present before is still
present afterwards. -/
lemma dlookup_dinsert_isSome {α : Type} (m : List (String × α)) (s k : String)
    (v : α) (h : (dlookup m k).isSome) :
    (dlookup (dinsert m s v) k).isSome := by
  rw [dlookup_dinsert]
  by_cases hk : k = s <;> simp [hk, h]

/-- The chunking worker maps the empty list to no chunks for any fuel. -/
lemma chunksBy50Aux_nil (fuel : Nat) : chunksBy50Aux fuel [] = [] := by
  cases fuel <;> rfl

/-- A non-empty SKU list of at most 50 entries forms exactly one chunk. -/
lemma chunksBy50_single (xs : List String) (h1 : xs ≠ [])
    (h2 : xs.length ≤ 50) : chunksBy50 xs = [xs] := by
  match xs, h1 with
  | x :: l, _ =>
    show chunksBy50Aux (l.length + 1) (x :: l) = [x :: l]
    simp only [chunksBy50Aux]
    rw [List.take_of_length_le h2, List.drop_eq_nil_of_le h2,
      chunksBy50Aux_nil]

/-- Every update the reconciliation loop emits is justified by a supplier
mapping entry whose SKU is found in the catalog map; the record copies the
catalog identifier, the run's location id and the supplier quantity. -/
lemma reconcile_mem (cat : List (String × String)) (sup : List (String × Int))
    (loc : String) (u : UpdateRec) (h : u ∈ reconcile cat sup loc) :
    ∃ s q, (s, q) ∈ sup ∧ dlookup cat s = some u.inventoryItemId ∧
      u.quantity = q ∧ u.locationId = loc := by
  rcases List.mem_filterMap.mp h with ⟨p, hp, hf⟩
  rcases Option.map_eq_some'.mp hf with ⟨iid, hlook, hrec⟩
  exact ⟨p.1, p.2, by simpa using hp, by simp [hlook, ← hrec], by
    simp [← hrec], by simp [← hrec]⟩

/-- Conversely, every supplier entry whose SKU resolves in the catalog map
yields its update record in the output. -/
lemma reconcile_mem_of (cat : List (String × String))
    (sup : List (String × Int)) (loc : String) (s : String) (q : Int)
    (i : String) (hmem : (s, q) ∈ sup) (hlook : dlookup cat s = some i) :
    UpdateRec.mk i loc q ∈ reconcile cat sup loc :=
  List.mem_filterMap.mpr ⟨(s, q), hmem, by simp [hlook]⟩

/-- The loop emits exactly one record per supplier entry whose SKU is in the
catalog map. -/
lemma reconcile_length (cat : List (String × String))
    (sup : List (String × Int)) (loc : String) :
    (reconcile cat sup loc).length =
      sup.countP (fun p => (dlookup cat p.1).isSome) := by
  induction sup with
  | nil => rfl
  | cons p rest ih =>
    rw [reconcile] at ih ⊢
    rw [List.filterMap_cons, List.countP_cons]
    cases hl : dlookup cat p.1 <;> simp [hl, ih]

/-- Prepending n throttle signals to the transport outcomes leaves the final
outcome unchanged and adds n more attempts. -/
lemma runQuery_throttle_shift (n : Nat) (rs : List GqlResp) :
    runQuery (List.replicate n GqlResp.throttled ++ rs) =
      ((runQuery rs).1, (runQuery rs).2 + n) := by
  induction n with
  | zero => simp
  | succ k ih => simp [List.replicate_succ, runQuery, ih]; omega

/-- Processing the items of a chunk never removes a key from the shared
inventory map. -/
lemma procItems_keys (items : List JVal) :
    ∀ (m : List (String × Int)) (k : String), (dlookup m k).isSome →
      (dlookup (procItems m items).1 k).isSome := by
  induction items with
  | nil => intro m k h; exact h
  | cons it rest ih =>
    intro m k h
    cases it with
    | jobj o =>
      simp only [procItems]
      cases hq : pyGetD o quantityKey (JVal.jobj []) with
      | jobj q =>
        by_cases hs : pyStrip (pyStr (pyGet o skuKey)) = ""
        · simp [hs]; exact ih m k h
        · by_cases hn : isNull (pyGet q valueKey) = true
          · simp [hs, hn]; exact ih m k h
          · cases hi : pyInt (pyGet q valueKey) with
            | some n =>
              simp [hs, hn, hi]
              exact ih _ k (dlookup_dinsert_isSome m _ k n h)
            | none => simp [hs, hn, hi]; exact h
      | jnull => simp [hq]; exact ih m k h
      | jint n => simp [hq]; exact ih m k h
      | jstr s => simp [hq]; exact ih m k h
      | jbool b => simp [hq]; exact ih m k h
      | jlist xs => simp [hq]; exact ih m k h
    | jnull => exact ih m k h
    | jint n => exact ih m k h
    | jstr s => exact ih m k h
    | jbool b => exact ih m k h
    | jlist xs => exact ih m k h

/-- Processing one chunk response never removes a key from the shared
inventory map: quantities already obtained survive any later chunk. -/
lemma procChunk_keys (m : List (String × Int)) (r : ChunkResp) (k : String)
    (h : (dlookup m k).isSome) : (dlookup (procChunk m r).1 k).isSome := by
  cases r with
  | exn => exact h
  | resp st body =>
    by_cases hst : st = 200 ∨ st = 400
    · cases body with
      | none => simpa only [procChunk, if_pos hst] using h
      | some d =>
        cases d with
        | jobj o =>
          cases hi : pyGetD o itemsKey (JVal.jlist []) with
          | jobj f =>
            simp only [procChunk, if_pos hst, hi]
            exact procItems_keys _ m k h
          | jlist xs =>
            simp only [procChunk, if_pos hst, hi]
            exact procItems_keys _ m k h
          | jnull => simpa only [procChunk, if_pos hst, hi] using h
          | jint n => simpa only [procChunk, if_pos hst, hi] using h
          | jstr s => simpa only [procChunk, if_pos hst, hi] using h
          | jbool b => simpa only [procChunk, if_pos hst, hi] using h
        | jnull => simpa only [procChunk, if_pos hst] using h
        | jint n => simpa only [procChunk, if_pos hst] using h
        | jstr s => simpa only [procChunk, if_pos hst] using h
        | jbool b => simpa only [procChunk, if_pos hst] using h
        | jlist xs => simpa only [procChunk, if_pos hst] using h
    · simpa only [procChunk, if_neg hst] using h

/-- All quantities recorded in an inventory map are non-negative. -/
def ValsNonNeg (m : List (String × Int)) : Prop :=
  ∀ p ∈ m, 0 ≤ p.2

/-- The nested quantity value of one response item, where present and
coercible, is non-negative. -/
def itemValNonNeg (it : JVal) : Bool :=
  match it with
  | JVal.jobj o =>
    match pyGetD o quantityKey (JVal.jobj []) with
    | JVal.jobj q =>
      match pyInt (pyGet q valueKey) with
      | some n => decide (0 ≤ n)
      | none => true
    | _ => true
  | _ => true

/-- Every item of a chunk response carries a non-negative quantity value
(vacuously true for responses whose body yields no item list). -/
def respNonNeg : ChunkResp → Bool
  | ChunkResp.exn => true
  | ChunkResp.resp _ body =>
    match body with
    | some (JVal.jobj o) =>
      match pyGetD o itemsKey (JVal.jlist []) with
      | JVal.jlist xs => xs.all itemValNonNeg
      | JVal.jobj f => itemValNonNeg (JVal.jobj f)
      | _ => true
    | _ => true

/-- Assigning a non-negative value preserves the map invariant. -/
lemma valsNonNeg_dinsert (m : List (String × Int)) (s : String) (n : Int)
    (hm : ValsNonNeg m) (hn : 0 ≤ n) : ValsNonNeg (dinsert m s n) := by
  induction m with
  | nil =>
    intro p hp
    simp [dinsert] at hp
    simp [hp, hn]
  | cons head tail ih =>
    intro p hp
    simp only [dinsert] at hp
    by_cases h1 : head.1 = s
    · rw [if_pos h1] at hp
      rcases List.mem_cons.mp hp with h | h
      · simp [h, hn]
      · exact hm p (List.mem_cons_of_mem head h)
    · rw [if_neg h1] at hp
      rcases List.mem_cons.mp hp with h | h
      · exact h ▸ hm head (List.mem_cons_self head tail)
      · exact ih (fun x hx => hm x (List.mem_cons_of_mem head hx)) p h

/-- Item processing preserves the non-negativity invariant whenever every
item of the chunk carries a non-negative value. -/
lemma procItems_nonneg (items : List JVal) :
    ∀ m : List (String × Int), items.all itemValNonNeg = true →
      ValsNonNeg m → ValsNonNeg (procItems m items).1 := by
  induction items with
  | nil => intro m _ hm; exact hm
  | cons it rest ih =>
    intro m hall hm
    rw [List.all_cons, Bool.and_eq_true] at hall
    cases it with
    | jobj o =>
      simp only [procItems]
      cases hq : pyGetD o quantityKey (JVal.jobj []) with
      | jobj q =>
        by_cases hs : pyStrip (pyStr (pyGet o skuKey)) = ""
        · simp only [hs, if_pos rfl]
          exact ih m hall.2 hm
        · by_cases hn : isNull (pyGet q valueKey) = true
          · simp [hs, hn]
            exact ih m hall.2 hm
          · cases hi : pyInt (pyGet q valueKey) with
            | some n =>
              simp [hs, hn, hi]
              have hnn : 0 ≤ n := by
                have := hall.1
                simp only [itemValNonNeg, hq, hi] at this
                exact of_decide_eq_true this
              exact ih _ hall.2 (valsNonNeg_dinsert m _ n hm hnn)
            | none => simp [hs, hn, hi]; exact hm
      | jnull => simp only [hq]; exact ih m hall.2 hm
      | jint n => simp only [hq]; exact ih m hall.2 hm
      | jstr s => simp only [hq]; exact ih m hall.2 hm
      | jbool b => simp only [hq]; exact ih m hall.2 hm
      | jlist xs => simp only [hq]; exact ih m hall.2 hm
    | jnull => exact ih m hall.2 hm
    | jint n => exact ih m hall.2 hm
    | jstr s => exact ih m hall.2 hm
    | jbool b => exact ih m hall.2 hm
    | jlist xs => exact ih m hall.2 hm

/-- Chunk processing preserves the non-negativity invariant for a response
whose items all carry non-negative values. -/
lemma procChunk_nonneg (m : List (String × Int)) (r : ChunkResp)
    (hr : respNonNeg r = true) (hm : ValsNonNeg m) :
    ValsNonNeg (procChunk m r).1 := by
  cases r with
  | exn => exact hm
  | resp st body =>
    by_cases hst : st = 200 ∨ st = 400
    · cases body with
      | none => simpa only [procChunk, if_pos hst] using hm
      | some d =>
        cases d with
        | jobj o =>
          cases hi : pyGetD o itemsKey (JVal.jlist []) with
          | jobj f =>
            simp only [procChunk, if_pos hst, hi]
            have hall : [JVal.jobj f].all itemValNonNeg = true := by
              simp only [respNonNeg, hi] at hr
              simp [hr]
            exact procItems_nonneg _ m hall hm
          | jlist xs =>
            simp only [procChunk, if_pos hst, hi]
            have hall : xs.all itemValNonNeg = true := by
              simpa only [respNonNeg, hi] using hr
            exact procItems_nonneg _ m hall hm
          | jnull => simpa only [procChunk, if_pos hst, hi] using hm
          | jint n => simpa only [procChunk, if_pos hst, hi] using hm
          | jstr s => simpa only [procChunk, if_pos hst, hi] using hm
          | jbool b => simpa only [procChunk, if_pos hst, hi] using hm
        | jnull => simpa only [procChunk, if_pos hst] using hm
        | jint n => simpa only [procChunk, if_pos hst] using hm
        | jstr s => simpa only [procChunk, if_pos hst] using hm
        | jbool b => simpa only [procChunk, if_pos hst] using hm
        | jlist xs => simpa only [procChunk, if_pos hst] using hm
    · simpa only [procChunk, if_neg hst] using hm

/-- Folding a sequence of non-negative responses preserves the invariant. -/
lemma procChunks_nonneg (rs : List ChunkResp) :
    ∀ m : List (String × Int), (∀ r ∈ rs, respNonNeg r = true) →
      ValsNonNeg m → ValsNonNeg (procChunks m rs).1 := by
  induction rs with
  | nil => intro m _ hm; exact hm
  | cons r rest ih =>
    intro m hall hm
    simp only [procChunks]
    exact ih _ (fun x hx => hall x (List.mem_cons_of_mem r hx))
      (procChunk_nonneg m r (hall r (List.mem_cons_self r rest)) hm)

/-
  Claim theorems.
-/

/-- C1, counterexample: in the Motovan pipeline a per-SKU supplier response
with status 400 and no parsable body is recorded as quantity 0, and the run
then emits an update writing that fabricated zero, although no supplier
response entry reported any quantity for the SKU (the 400 branch never even
reads the body). -/
theorem c1_counterexample :
    motoMain
        [CatalogPage.page [CItem.mk ("id1") true (some (some ("A")))] false]
        [ChunkResp.resp 400 none] =
      RunResult.finished [UpdateRec.mk ("id1") MOTOVAN_LOCATION_ID 0] := by
  decide

/-- C1, amended: every update emitted by the reconciliation loop is justified
by an entry of the supplier quantity mapping whose SKU resolves in the
catalog map, carrying that entry's quantity — so a catalog SKU absent from
the supplier mapping receives no update; however, in the Motovan fetcher the
mapping entry itself can be a zero fabricated for a status-400 per-SKU
response, as the counterexample shows. -/
theorem c1_amended (cat : List (String × String)) (sup : List (String × Int))
    (loc : String) (u : UpdateRec) (h : u ∈ reconcile cat sup loc) :
    ∃ s q, (s, q) ∈ sup ∧ dlookup cat s = some u.inventoryItemId ∧
      u.quantity = q ∧ u.locationId = loc :=
  reconcile_mem cat sup loc u h

/-- C1, witness: the amended theorem applied to a concrete one-entry catalog
and supplier mapping. -/
theorem c1_witness :
    (UpdateRec.mk ("1") ("L") 5 ∈
        reconcile [(("A"), ("1"))] [(("A"), (5 : Int))] ("L")) ∧
      (∃ s q, (s, q) ∈ [(("A"), (5 : Int))] ∧
        dlookup [(("A"), ("1"))] s = some ("1") ∧ (5 : Int) = q ∧
        ("L") = ("L")) :=
  ⟨by decide,
    c1_amended [(("A"), ("1"))] [(("A"), (5 : Int))] ("L")
      (UpdateRec.mk ("1") ("L") 5) (by decide)⟩

/-- C2, counterexample: no uniform bound on the number of write attempts
exists — run_query keeps retrying as long as the transport keeps answering
THROTTLED, so the attempt count is unbounded over response sequences and a
throttled batch is never reported as failed. -/
theorem c2_counterexample :
    ¬ ∃ N : Nat, ∀ rs : List GqlResp, (runQuery rs).2 ≤ N := by
  rintro ⟨N, h⟩
  have h2 := h (List.replicate (N + 1) GqlResp.throttled ++ [GqlResp.ok])
  rw [runQuery_throttle_shift] at h2
  simp [runQuery] at h2
  omega

/-- C2, amended: the retry-on-throttle is recursive with a fixed two-second
delay and no maximum attempt count: n consecutive throttle signals add
exactly n extra attempts and the call finishes with the outcome of the first
non-throttle response; the batch is never reported failed through retry
exhaustion because no retry budget exists. -/
theorem c2_amended (n : Nat) (rs : List GqlResp) :
    runQuery (List.replicate n GqlResp.throttled ++ rs) =
      ((runQuery rs).1, (runQuery rs).2 + n) :=
  runQuery_throttle_shift n rs

/-- C3, counterexample: at catalog A to 1, B to 2 and supplier A to 5, C to 9
the code emits exactly the one update for A but returns no unmatched set:
replacing the unmatched supplier SKU C by D leaves the complete
reconciliation output unchanged, so no component of the returned value can
carry the unmatched set, which would differ between the two inputs. -/
theorem c3_counterexample :
    reconcile [(("A"), ("1")), (("B"), ("2"))]
        [(("A"), 5), (("C"), 9)] ("L") = [UpdateRec.mk ("1") ("L") 5] ∧
      reconcile [(("A"), ("1")), (("B"), ("2"))]
          [(("A"), 5), (("C"), 9)] ("L") =
        reconcile [(("A"), ("1")), (("B"), ("2"))]
          [(("A"), 5), (("D"), 7)] ("L") :=
  ⟨by decide, by decide⟩

/-- C3, amended: for every SKU of the supplier mapping that exists in the
catalog map the loop emits the update record carrying the catalog identifier,
the run's location id and the supplier quantity, and the output holds exactly
one record per matched supplier entry; supplier SKUs absent from the catalog
are skipped silently — no unmatched set is built or returned (on the spec's
example the full output is the single update for A and nothing records C). -/
theorem c3_amended :
    (∀ (cat : List (String × String)) (sup : List (String × Int))
        (loc s : String) (q : Int) (i : String), (s, q) ∈ sup →
        dlookup cat s = some i →
        UpdateRec.mk i loc q ∈ reconcile cat sup loc) ∧
      (∀ (cat : List (String × String)) (sup : List (String × Int))
        (loc : String), (reconcile cat sup loc).length =
          sup.countP (fun p => (dlookup cat p.1).isSome)) ∧
      reconcile [(("A"), ("1")), (("B"), ("2"))]
        [(("A"), 5), (("C"), 9)] ("L") = [UpdateRec.mk ("1") ("L") 5] :=
  ⟨fun cat sup loc s q i hm hl => reconcile_mem_of cat sup loc s q i hm hl,
    fun cat sup loc => reconcile_length cat sup loc, by decide⟩

/-- C3, witness: the amended emission property applied to the spec's
concrete example. -/
theorem c3_witness :
    ((("A"), (5 : Int)) ∈ [(("A"), (5 : Int)), (("C"), (9 : Int))] ∧
        dlookup [(("A"), ("1")), (("B"), ("2"))] ("A") = some ("1")) ∧
      UpdateRec.mk ("1") ("L") 5 ∈
        reconcile [(("A"), ("1")), (("B"), ("2"))]
          [(("A"), 5), (("C"), 9)] ("L") :=
  ⟨⟨by decide, by decide⟩,
    c3_amended.1 [(("A"), ("1")), (("B"), ("2"))] [(("A"), 5), (("C"), 9)]
      ("L") ("A") 5 ("1") (by decide) (by decide)⟩

/-- Raw sku carried by an item's variant, empty when the variant is missing
or its sku is null. -/
def rawSku (it : CItem) : String :=
  match it.variant with
  | some (some s) => s
  | _ => ""

/-- Whether the item's variant is present and carries a truthy sku. -/
def hasSku (it : CItem) : Bool :=
  match it.variant with
  | some (some s) => if s = "" then false else true
  | _ => false

/-- C4, counterexample: the pager of main.py includes an item whose tracked
flag is false, refuting the only-if direction of the claim for that variant
of the pipeline. -/
theorem c4_counterexample :
    addItemMain [] (CItem.mk ("id9") false (some (some ("X")))) =
        [(("X"), ("id9"))] ∧
      (CItem.mk ("id9") false (some (some ("X")))).tracked = false :=
  ⟨by decide, by decide⟩

/-- C4, amended: in the Motovan and Thibault pagers an item contributes an
entry exactly when its tracked flag is true and it carries a non-empty SKU;
in the main.py pager the tracked flag is ignored and an item contributes
exactly when it carries a non-empty SKU — the entry key being the stripped
SKU in both cases. -/
theorem c4_amended (m : List (String × String)) (it : CItem) :
    (addItemMoto m it =
        if it.tracked && hasSku it then
          dinsert m (pyStrip (rawSku it)) it.id
        else m) ∧
      (addItemMain m it =
        if hasSku it then dinsert m (pyStrip (rawSku it)) it.id else m) := by
  obtain ⟨i, t, v⟩ := it
  rcases v with _ | (_ | s)
  · cases t <;> simp [addItemMoto, addItemMain, hasSku, rawSku]
  · cases t <;> simp [addItemMoto, addItemMain, hasSku, rawSku]
  · by_cases hs : s = "" <;> cases t <;>
      simp [addItemMoto, addItemMain, hasSku, rawSku, hs]

/-- C5, counterexample: in the Motovan pipeline a page with a missing or null
location scope merely stops pagination: the run keeps the entries collected
before it, proceeds to fetch the supplier inventory and still emits updates —
nothing fails as a fatal condition and writes are still prepared. -/
theorem c5_counterexample :
    motoMain
        [CatalogPage.page [CItem.mk ("id2") true (some (some ("B")))] true,
          CatalogPage.noLocation]
        [ChunkResp.resp 200 (some (JVal.jobj [(inventoryLvlKey,
          JVal.jlist [JVal.jobj [(quantityKey, JVal.jint 4)]])]))] =
      RunResult.finished [UpdateRec.mk ("id2") MOTOVAN_LOCATION_ID 4] := by
  decide

/-- C5, amended: in main.py a page with a missing or null location scope
raises, the pagination result is fatal and the whole run aborts without
consulting the supplier — the outcome is fatal for every supplier response
environment; in the Motovan and Thibault variants the same page merely ends
pagination, returning the map collected so far, and the run continues. -/
theorem c5_amended :
    (∀ (m : List (String × String)) (ps : List CatalogPage),
        shopifyPagerAux m (CatalogPage.noLocation :: ps) =
          PagerResult.fatal) ∧
      (∀ (ps : List CatalogPage) (rs rs2 : List ChunkResp),
        shopifyPager ps = PagerResult.fatal →
          mainRun ps rs = RunResult.fatal ∧
            mainRun ps rs = mainRun ps rs2) ∧
      (∀ (m : List (String × String)) (ps : List CatalogPage),
        motoPagerAux m (CatalogPage.noLocation :: ps) =
          PagerResult.done m) := by
  refine ⟨fun m ps => rfl, ?_, fun m ps => rfl⟩
  intro ps rs rs2 h
  constructor <;> simp [mainRun, h]

/-- C5, witness: the main.py half of the amended claim at the one-page
environment whose single page lacks the location scope. -/
theorem c5_witness :
    shopifyPager [CatalogPage.noLocation] = PagerResult.fatal ∧
      mainRun [CatalogPage.noLocation] [] = RunResult.fatal :=
  ⟨by decide, (c5_amended.2.1 [CatalogPage.noLocation] [] [] (by decide)).1⟩

/-- C6, counterexample: a 401 response on the first of two chunks does not
abort the run — the chunk is skipped and the second chunk is still fetched
and parsed, its entry appearing in the final mapping. -/
theorem c6_counterexample :
    getSupplierInventory (List.replicate 51 ("A"))
        [ChunkResp.resp 401 none,
          ChunkResp.resp 200 (some (JVal.jobj [(itemsKey,
            JVal.jlist [JVal.jobj [(skuKey, JVal.jstr ("Z")),
              (quantityKey, JVal.jobj [(valueKey, JVal.jint 3)])]])]))] =
      [(("Z"), 3)] := by
  decide

/-- C6, amended: a status-401 chunk response is treated as an ordinary
chunk failure: it contributes nothing to the mapping, raises no exception
flag, and processing continues with the remaining chunks exactly as if the
401 chunk had not been requested. -/
theorem c6_amended (m : List (String × Int)) (b : Option JVal)
    (rest : List ChunkResp) :
    procChunks m (ChunkResp.resp 401 b :: rest) =
      ((procChunks m rest).1, false :: (procChunks m rest).2) := by
  have h : procChunk m (ChunkResp.resp 401 b) = (m, false) := by
    cases b <;> simp [procChunk]
  simp [procChunks, h]

/-- C7, the code evaluated at the failing input: a response item carrying a
quantity but no sku field is not dropped — str applied to None gives the
four-letter string None, which is truthy, so the mapping gains that bogus key
with quantity 7, although the item carried no SKU field at all. -/
theorem c7_code_eval :
    getSupplierInventory [("A")]
        [ChunkResp.resp 200 (some (JVal.jobj [(itemsKey,
          JVal.jlist [JVal.jobj
            [(quantityKey, JVal.jobj [(valueKey, JVal.jint 7)])]])]))] =
      [(("None"), 7)] := by
  decide

/-- C8, counterexample: three chunks where the second raises inside its item
loop (int() applied to a non-numeric value) after the first item B1 was
already stored.  The exception handler fires for chunk 2 (flags false, true,
false) yet the final mapping keeps B1 from the failed chunk together with
chunks 1 and 3 — it is not the union of entries parsed from the accepted
chunks only, and the failed chunk's later item B3 is lost. -/
theorem c8_counterexample :
    procChunks []
        [ChunkResp.resp 200 (some (JVal.jobj [(itemsKey,
          JVal.jlist [JVal.jobj [(skuKey, JVal.jstr ("A1")),
            (quantityKey, JVal.jobj [(valueKey, JVal.jint 1)])]])])),
          ChunkResp.resp 200 (some (JVal.jobj [(itemsKey,
            JVal.jlist [JVal.jobj [(skuKey, JVal.jstr ("B1")),
              (quantityKey, JVal.jobj [(valueKey, JVal.jint 2)])],
              JVal.jobj [(skuKey, JVal.jstr ("B2")),
                (quantityKey, JVal.jobj [(valueKey, JVal.jstr ("x"))])],
              JVal.jobj [(skuKey, JVal.jstr ("B3")),
                (quantityKey, JVal.jobj [(valueKey, JVal.jint 4)])]])])),
          ChunkResp.resp 200 (some (JVal.jobj [(itemsKey,
            JVal.jlist [JVal.jobj [(skuKey, JVal.jstr ("C1")),
              (quantityKey, JVal.jobj [(valueKey, JVal.jint 3)])]])]))] =
      ([(("A1"), 1), (("B1"), 2), (("C1"), 3)], [false, true, false]) := by
  decide

/-- C8, amended: failure isolation holds in a weaker form than claimed:
processing a chunk never removes quantities already obtained (whether from
other chunks or from earlier items of the same chunk), fetching always
continues with the remaining chunks, and a chunk failing before its items
are parsed — transport exception, unexpected status, non-JSON body —
contributes nothing; but a chunk whose item loop raises midway keeps the
entries parsed before the failure, so the final mapping can strictly contain
the union over the fully accepted chunks. -/
theorem c8_amended :
    (∀ (m : List (String × Int)) (r : ChunkResp) (k : String),
        (dlookup m k).isSome → (dlookup (procChunk m r).1 k).isSome) ∧
      (∀ m : List (String × Int), procChunk m ChunkResp.exn = (m, true)) ∧
      (∀ (m : List (String × Int)) (b : Option JVal) (st : Nat),
        ¬(st = 200 ∨ st = 400) →
          procChunk m (ChunkResp.resp st b) = (m, false)) ∧
      (∀ m : List (String × Int),
        procChunk m (ChunkResp.resp 200 none) = (m, false)) := by
  refine ⟨fun m r k h => procChunk_keys m r k h, fun m => rfl, ?_,
    fun m => by simp [procChunk]⟩
  intro m b st h
  simp only [procChunk, if_neg h]

/-- C8, witness: the amended conjuncts applied to a concrete one-entry map, a
transport exception and a 500-status response. -/
theorem c8_witness :
    ((dlookup [(("K"), (1 : Int))] ("K")).isSome = true) ∧
      ((dlookup (procChunk [(("K"), (1 : Int))] ChunkResp.exn).1
          ("K")).isSome = true) ∧
      procChunk ([] : List (String × Int)) (ChunkResp.resp 500 none) =
        ([], false) :=
  ⟨by decide, c8_amended.1 [(("K"), 1)] ChunkResp.exn ("K") (by decide),
    c8_amended.2.2.1 [] none 500 (by decide)⟩

/-- C9, counterexample: a supplier item reporting the nested value -5 passes
the int() coercion unchanged: the mapping records -5 and the update record
submitted to the bulk writer carries the negative quantity. -/
theorem c9_counterexample :
    getSupplierInventory [("A")]
        [ChunkResp.resp 200 (some (JVal.jobj [(itemsKey,
          JVal.jlist [JVal.jobj [(skuKey, JVal.jstr ("A")),
            (quantityKey, JVal.jobj [(valueKey, JVal.jint (-5))])]])]))] =
      [(("A"), -5)] ∧
      reconcile [(("A"), ("1"))] [(("A"), -5)] ("L") =
        [UpdateRec.mk ("1") ("L") (-5)] ∧
      ((-5 : Int) < 0) :=
  ⟨by decide, by decide, by decide⟩

/-- C9, amended: every quantity is an integer produced by the int() coercion
and no clamping occurs; the mapping values — and with them the quantities of
all update records built from the mapping — are non-negative provided every
coercible nested quantity value in the responses is non-negative. -/
theorem c9_amended (skus : List String) (rs : List ChunkResp)
    (h : ∀ r ∈ rs, respNonNeg r = true) :
    (∀ p ∈ getSupplierInventory skus rs, 0 ≤ p.2) ∧
      (∀ (cat : List (String × String)) (loc : String) (u : UpdateRec),
        u ∈ reconcile cat (getSupplierInventory skus rs) loc →
          0 ≤ u.quantity) := by
  have hmap : ValsNonNeg (getSupplierInventory skus rs) := by
    unfold getSupplierInventory
    by_cases hs : skus = []
    · rw [if_pos hs]
      exact fun p hp => absurd hp (List.not_mem_nil p)
    · rw [if_neg hs]
      refine procChunks_nonneg _ [] ?_ ?_
      · intro r hr
        exact h r (List.mem_of_mem_take hr)
      · exact fun p hp => absurd hp (List.not_mem_nil p)
  refine ⟨hmap, ?_⟩
  intro cat loc u hu
  rcases reconcile_mem cat _ loc u hu with ⟨s, q, hmem, _, hq, _⟩
  rw [hq]
  exact hmap (s, q) hmem

/-- C9, witness: the amended theorem at a single accepted response reporting
quantity 5 for SKU A. -/
theorem c9_witness :
    ((("A"), (5 : Int)) ∈ getSupplierInventory [("A")]
        [ChunkResp.resp 200 (some (JVal.jobj [(itemsKey,
          JVal.jlist [JVal.jobj [(skuKey, JVal.jstr ("A")),
            (quantityKey, JVal.jobj [(valueKey, JVal.jint 5)])]])]))]) ∧
      (0 : Int) ≤ 5 :=
  ⟨by decide,
    (c9_amended [("A")] [ChunkResp.resp 200 (some (JVal.jobj [(itemsKey,
        JVal.jlist [JVal.jobj [(skuKey, JVal.jstr ("A")),
          (quantityKey, JVal.jobj [(valueKey, JVal.jint 5)])]])]))]
        (by decide)).1 ((("A"), 5)) (by decide)⟩

/-- C10: the supplier fetch does not filter parsed entries against the
requested SKU set: for any single-chunk request the resulting mapping is a
function of the response alone, independent of which SKUs were asked for,
and a concrete response volunteering the unrequested SKU Z yields a mapping
keyed by the stripped Z even though only A was requested. -/
theorem c10_unfiltered :
    (∀ (skus : List String) (r : ChunkResp), skus ≠ [] →
        skus.length ≤ 50 →
        getSupplierInventory skus [r] = (procChunk [] r).1) ∧
      (getSupplierInventory [("A")]
          [ChunkResp.resp 200 (some (JVal.jobj [(itemsKey,
            JVal.jlist [JVal.jobj [(skuKey, JVal.jstr (" Z ")),
              (quantityKey, JVal.jobj [(valueKey, JVal.jint 9)])]])]))] =
        [(("Z"), 9)] ∧ ¬(("Z") ∈ [("A")])) := by
  constructor
  · intro skus r h1 h2
    unfold getSupplierInventory
    rw [if_neg h1, chunksBy50_single skus h1 h2]
    simp [procChunks]
  · exact ⟨by decide, by decide⟩

/-- C10, witness: the single-chunk independence applied at a concrete
request and response. -/
theorem c10_witness :
    (([("A")] : List String) ≠ [] ∧ ([("A")] : List String).length ≤ 50) ∧
      getSupplierInventory [("A")] [ChunkResp.resp 204 none] =
        (procChunk [] (ChunkResp.resp 204 none)).1 :=
  ⟨⟨by decide, by decide⟩,
    c10_unfiltered.1 [("A")] (ChunkResp.resp 204 none) (by decide)
      (by decide)⟩
